import Mathlib

/-!
Shallow embedding of the Telegram-to-Wasabi relay bot
(repository `Mraprguild8133/Storage`), covering the transfer pipeline:
the retrying upload wrapper, the rate limiter, the progress reporters,
the size formatters, the base64 link encoding, and the file handlers.
All definitions are translated from the Python sources; machine time is
modelled as `Int` (seconds), byte counts as `Nat`, Python floats as `Rat`.
-/

namespace Storage

/-! ## RateLimiter (deepseek_python_20251003_7b178d.py, lines 92-118)

`user_uploads[user_id]` is the list of timestamps for one user; `now` is
passed explicitly.  `datetime` arithmetic is modelled over `Int` seconds.
-/

/-- The pruning comprehension: keep timestamps with `now - t < time_window`. -/
def prune (uploads : List Int) (now : Int) (timeWindow : Int := 3600) : List Int :=
  uploads.filter (fun t => now - t < timeWindow)

/-- Method `RateLimiter.is_limited` for one user: returns the boolean result and the
new timestamp list stored back into `user_uploads[user_id]`. -/
def isLimited (uploads : List Int) (now : Int) (maxUploads : Nat := 10)
    (timeWindow : Int := 3600) : Bool × List Int :=
  let pruned := prune uploads now timeWindow
  if maxUploads ≤ pruned.length then (true, pruned)
  else (false, pruned ++ [now])

/-- Method `RateLimiter.get_remaining_uploads` for one user: `max(0, max_uploads - len)`. -/
def getRemainingUploads (uploads : List Int) (now : Int) (maxUploads : Int := 10)
    (timeWindow : Int := 3600) : Int :=
  max 0 (maxUploads - (prune uploads now timeWindow).length)

/-- Folding `is_limited` over a sequence of call times: returns the number of
admitted (non-limited) calls and the final stored list. -/
def admittedRun (uploads : List Int) : List Int → Nat × List Int
  | [] => (0, uploads)
  | now :: rest =>
      let r := isLimited uploads now
      let (c, fin) := admittedRun r.2 rest
      ((if r.1 then 0 else 1) + c, fin)

/-! ## Retrying upload wrapper (deepseek_python_20251003_7b178d.py, lines 277-332)

`upload_to_wasabi` loops `for attempt in range(max_retries)`; each attempt
either succeeds (`return True`) or raises `ClientError`.  On the last attempt
the error is re-raised; otherwise the handler edits a user-visible retrying
notice and sleeps `base_delay * 2 ** attempt`.  The per-attempt outcome of the
wrapped `s3_client.upload_file` call is the environment: `none` means success,
`some code` means a `ClientError` with that error code. -/

inductive UEvent : Type
  | attemptStart (attempt : Nat)
  | retryNotice (attempt : Nat) (delay : Nat)
  | backoffSleep (delay : Nat)
  deriving DecidableEq, Repr

inductive UResult : Type
  | success
  | raised (code : String)
  | falseReturn
  deriving DecidableEq, Repr

/-- The `for attempt in range(max_retries)` loop body of `upload_to_wasabi`.
`rem` is the number of loop iterations left (`max_retries - attempt`). -/
def uploadLoop (out : Nat → Option String) (maxRetries baseDelay : Nat) :
    Nat → Nat → UResult × List UEvent
  | 0, _ => (UResult.falseReturn, [])
  | rem + 1, attempt =>
      match out attempt with
      | none => (UResult.success, [UEvent.attemptStart attempt])
      | some code =>
          if attempt = maxRetries - 1 then
            (UResult.raised code, [UEvent.attemptStart attempt])
          else
            let delay := baseDelay * 2 ^ attempt
            let r := uploadLoop out maxRetries baseDelay rem (attempt + 1)
            (r.1, UEvent.attemptStart attempt :: UEvent.retryNotice attempt delay ::
              UEvent.backoffSleep delay :: r.2)

/-- Function `upload_to_wasabi` with its hard-coded `max_retries = 3`, `base_delay = 2`. -/
def upload_to_wasabi (out : Nat → Option String) : UResult × List UEvent :=
  uploadLoop out 3 2 3 0

/-- The backoff sleep durations of a run, in order. -/
def sleepsOf (evs : List UEvent) : List Nat :=
  evs.filterMap (fun e => match e with
    | UEvent.backoffSleep d => some d
    | _ => none)

/-- The attempts started during a run, in order. -/
def attemptsOf (evs : List UEvent) : List Nat :=
  evs.filterMap (fun e => match e with
    | UEvent.attemptStart k => some k
    | _ => none)

/-- Every backoff sleep is immediately preceded by a retrying notice of the
same delay. -/
def noticeBeforeEachSleep : List UEvent → Bool
  | [] => true
  | UEvent.retryNotice _ d :: UEvent.backoffSleep d' :: rest =>
      d = d' && noticeBeforeEachSleep rest
  | UEvent.backoffSleep _ :: _ => false
  | _ :: rest => noticeBeforeEachSleep rest

/-! ## Multipart uploader (deepseek_python_20251003_6e01cf.py, lines 288-307)

`upload_to_wasabi_with_progress` makes a single `s3_client.upload_file` call
(with a `TransferConfig` carrying a multipart threshold); on `ClientError` it
raises a wrapped `Exception`.  It issues no abort or complete call itself.
The environment is the outcome of the `upload_file` call. -/

inductive SinkCall : Type
  | uploadFileCall
  | abortMultipartCall
  | completeMultipartCall
  deriving DecidableEq, Repr

/-- Function `upload_to_wasabi_with_progress`: result plus the trace of object-store
calls the function itself issues. -/
def upload_to_wasabi_with_progress (out : Option String) :
    Except String Unit × List SinkCall :=
  match out with
  | none => (Except.ok (), [SinkCall.uploadFileCall])
  | some e => (Except.error ("Wasabi upload failed: " ++ e), [SinkCall.uploadFileCall])

/-! ## Progress reporters

Python exceptions relevant here. -/

inductive PyErr : Type
  | zeroDivisionError
  deriving DecidableEq, Repr

/-- Result of one progress-callback invocation: whether the display edit was
reached, the exception escaping the call (if any), and the updated
last-update bookkeeping table. -/
structure PCResult : Type where
  emitted : Bool
  err : Option PyErr
  table : List (Nat × Int)
  deriving DecidableEq, Repr

/-- Python dict assignment `d[k] = v` on an association list. -/
def storeTime (m : List (Nat × Int)) (k : Nat) (v : Int) : List (Nat × Int) :=
  (k, v) :: m.filter (fun p => !(p.1 == k))

/-- Coroutine `progress_callback` of deepseek_python_20251003_7b178d.py (lines 230-258):
throttles with `(now - last_update_time.get(message_id, 0)) < 2 and
current != total`, then stores `now`, then computes
`percentage = current * 100 / total` (raising `ZeroDivisionError` when
`total == 0`) before editing the message. -/
def progressCallbackDs (current total mid : Nat) (now : Int)
    (m : List (Nat × Int)) : PCResult :=
  if now - ((m.lookup mid).getD 0) < 2 ∧ current ≠ total then
    { emitted := false, err := none, table := m }
  else
    let m' := storeTime m mid now
    if total = 0 then { emitted := false, err := some PyErr.zeroDivisionError, table := m' }
    else { emitted := true, err := none, table := m' }

/-- Coroutine `progress_callback` of src/bot/utils.py (lines 26-52): debounces with
`message.id in progress_tracker and (now - progress_tracker[message.id]) < 2`
(no completion exception), stores `now`, then computes
`percentage = current * 100 / total` before editing. -/
def progressCallbackUtils (current total mid : Nat) (now : Int)
    (m : List (Nat × Int)) : PCResult :=
  if (m.lookup mid).isSome ∧ now - ((m.lookup mid).getD 0) < 2 then
    { emitted := false, err := none, table := m }
  else
    let m' := storeTime m mid now
    if total = 0 then { emitted := false, err := some PyErr.zeroDivisionError, table := m' }
    else { emitted := true, err := none, table := m' }

/-- Method `FileHandler.upload_progress` of src/file_handlers.py (lines 123-139):
the whole body sits in `try/except Exception`, so a `ZeroDivisionError` from
`(current / total) * 100` is swallowed and the edit is skipped.  Returns
(display edit reached, exception swallowed by the handler). -/
def upload_progress (current total : Nat) : Bool × Option PyErr :=
  if total = 0 then (false, some PyErr.zeroDivisionError) else (true, none)

/-! ## Size formatters

Python floats are modelled as `ℚ`; division by 1024 is exact in binary
floating point, so the loop values and comparisons agree with the source.
`formatFixed2` renders `f"{x:.2f}"` (rounding of the hundredths digit). -/

/-- Renders a nonnegative rational with two decimal places, as `f"{x:.2f}"`. -/
def formatFixed2 (q : ℚ) : String :=
  let cents : Int := (q * 100 + 1/2).floor
  let ip := cents / 100
  let fp := (cents % 100).toNat
  toString ip ++ "." ++ (if fp < 10 then "0" else "") ++ toString fp

/-- The `while size > power and n < len(power_labels) - 1` loop of
`humanbytes` (deepseek_python_20251003_7b178d.py lines 194-205 and
src/bot/utils.py lines 13-24, identical).  The guard `n < 4` bounds the loop
at 4 iterations, so fuel 4 is exact. -/
def humanLoop : Nat → ℚ → Nat → ℚ × Nat
  | 0, q, n => (q, n)
  | fuel + 1, q, n =>
      if 1024 < q ∧ n < 4 then humanLoop fuel (q / 1024) (n + 1) else (q, n)

/-- Table `power_labels = {0: '', 1: 'K', 2: 'M', 3: 'G', 4: 'T'}`. -/
def power_labels (n : Nat) : String :=
  (["", "K", "M", "G", "T"].getD n "")

/-- Function `humanbytes`: `"0B"` for falsy input, otherwise
`f"{size:.2f} {power_labels[n]}B"` after the division loop. -/
def humanbytes (size : Nat) : String :=
  if size = 0 then "0B"
  else
    formatFixed2 (humanLoop 4 (size : ℚ) 0).1 ++ " " ++
      power_labels (humanLoop 4 (size : ℚ) 0).2 ++ "B"

/-- The `while size_bytes >= 1024 and i < len(size_names) - 1` loop of
`format_size` (src/bot.py lines 812-823).  Guard `i < 3` bounds the loop at
3 iterations, so fuel 3 is exact. -/
def fsLoop : Nat → ℚ → Nat → ℚ × Nat
  | 0, q, i => (q, i)
  | fuel + 1, q, i =>
      if 1024 ≤ q ∧ i < 3 then fsLoop fuel (q / 1024) (i + 1) else (q, i)

/-- Table `size_names = ["B", "KB", "MB", "GB"]`. -/
def size_names (i : Nat) : String :=
  (["B", "KB", "MB", "GB"].getD i "")

/-- Method `format_size`: `"0 B"` for zero, otherwise
`f"{size_bytes:.2f} {size_names[i]}"` after the division loop; note the unit
list stops at GB. -/
def format_size (sizeBytes : Nat) : String :=
  if sizeBytes = 0 then "0 B"
  else
    formatFixed2 (fsLoop 3 (sizeBytes : ℚ) 0).1 ++ " " ++
      size_names (fsLoop 3 (sizeBytes : ℚ) 0).2

/-! ## File-upload handlers

The per-file pipeline of deepseek_python_20251003_7b178d.py (`file_handler`,
lines 543-655): guards (client initialized, rate limit, 4 GiB size ceiling),
then `try` (download, upload, presign, final edit) / `except` (error edit) /
`finally` (remove the temp file if it exists, delete the
`last_update_time[status_message.id]` entry if present).  The environment
fixes the outcome of each external call. -/

/-- Outcome of `client.download_media`: success, or an exception raised after
the partial file appeared on disk, or before any file was created. -/
inductive DlOutcome : Type
  | ok
  | errFileCreated
  | errNoFile
  deriving DecidableEq, Repr

structure FHEnv : Type where
  s3Init : Bool
  rateLimited : Bool
  fileSize : Nat
  dl : DlOutcome
  uploadRaises : Bool
  presigned : Option String
  /-- whether a progress callback wrote `last_update_time[status_message.id]`
  at some point during the job -/
  progressEntryWritten : Bool
  deriving DecidableEq, Repr

inductive Effect : Type
  | replyText
  | statusReply
  | makeDirs
  | downloadMediaCall
  | uploadFileCall
  | presignCall
  | editStatus
  | removeFileCall
  | delProgressEntry
  deriving DecidableEq, Repr

inductive FHOutcome : Type
  | rejectedNoClient
  | rejectedRate
  | rejectedSize
  | completed
  | failed
  deriving DecidableEq, Repr

structure FHFinal : Type where
  outcome : FHOutcome
  /-- the local temp file exists when the handler returns -/
  tempExists : Bool
  /-- the local temp file existed at some point during the run -/
  tempCreated : Bool
  /-- whether `last_update_time` still holds the job's entry when the handler returns -/
  entryExists : Bool
  effects : List Effect
  deriving DecidableEq, Repr

/-- The `finally` block of `file_handler`: `if os.path.exists(file_path):
os.remove(file_path)` and `if status_message.id in last_update_time: del ...`. -/
def finallyCleanup (outcome : FHOutcome) (temp created entry : Bool)
    (evs : List Effect) : FHFinal :=
  { outcome := outcome
    tempExists := false
    tempCreated := created
    entryExists := false
    effects := evs ++ (if temp then [Effect.removeFileCall] else []) ++
      (if entry then [Effect.delProgressEntry] else []) }

/-- Handler `file_handler` of deepseek_python_20251003_7b178d.py. -/
def file_handler (env : FHEnv) : FHFinal :=
  if !env.s3Init then
    { outcome := FHOutcome.rejectedNoClient, tempExists := false, tempCreated := false
      entryExists := false, effects := [Effect.replyText] }
  else if env.rateLimited then
    { outcome := FHOutcome.rejectedRate, tempExists := false, tempCreated := false
      entryExists := false, effects := [Effect.replyText] }
  else if 4 * 1024 * 1024 * 1024 < env.fileSize then
    { outcome := FHOutcome.rejectedSize, tempExists := false, tempCreated := false
      entryExists := false, effects := [Effect.replyText] }
  else
    let pre := [Effect.statusReply, Effect.makeDirs]
    match env.dl with
    | DlOutcome.errNoFile =>
        finallyCleanup FHOutcome.failed false false env.progressEntryWritten
          (pre ++ [Effect.downloadMediaCall, Effect.editStatus])
    | DlOutcome.errFileCreated =>
        finallyCleanup FHOutcome.failed true true env.progressEntryWritten
          (pre ++ [Effect.downloadMediaCall, Effect.editStatus])
    | DlOutcome.ok =>
        if env.uploadRaises then
          finallyCleanup FHOutcome.failed true true env.progressEntryWritten
            (pre ++ [Effect.downloadMediaCall, Effect.editStatus,
              Effect.uploadFileCall, Effect.editStatus])
        else
          finallyCleanup FHOutcome.completed true true env.progressEntryWritten
            (pre ++ [Effect.downloadMediaCall, Effect.editStatus,
              Effect.uploadFileCall, Effect.editStatus, Effect.presignCall,
              Effect.editStatus])

/-! `handle_file_upload` of src/bot.py (lines 253-341): downloads to
`temp_{file_id}_{file_name}`, uploads through `WasabiStorage.upload_file`,
and removes the temp file only on the success path (`os.remove` sits after
the upload succeeds, not in a `finally`); the inner `except` edits an error
message and returns without touching the temp file. -/

structure BotEnv : Type where
  dl : DlOutcome
  /-- the `progress_msg.edit_text("Uploading ...")` call raises -/
  editUploadingRaises : Bool
  /-- result of `WasabiStorage.upload_file` (never raises; returns a URL or a
  falsy value) -/
  uploadUrl : Option String
  hasCaption : Bool
  finalizeRaises : Bool
  deriving DecidableEq, Repr

structure BotFinal : Type where
  tempExists : Bool
  tempCreated : Bool
  deriving DecidableEq, Repr

/-- Handler `handle_file_upload` of src/bot.py, tracking the local temp file. -/
def handle_file_upload (env : BotEnv) : BotFinal :=
  match env.dl with
  | DlOutcome.errNoFile => { tempExists := false, tempCreated := false }
  | DlOutcome.errFileCreated => { tempExists := true, tempCreated := true }
  | DlOutcome.ok =>
      if env.editUploadingRaises then { tempExists := true, tempCreated := true }
      else
        match env.uploadUrl with
        | none => { tempExists := true, tempCreated := true }
        | some _ => { tempExists := false, tempCreated := true }

/-! `FileHandler.handle_file_upload` of src/file_handlers.py (lines 15-120):
replies a progress message, checks `file.file_size > config.MAX_FILE_SIZE`
(4 GiB) and returns before generating a file id, downloading, or calling the
store. -/

inductive FhEffect : Type
  | progressReply
  | editMsg
  | downloadCall
  | wasabiUploadCall
  | dbAddCall
  | removeTempCall
  deriving DecidableEq, Repr

structure FhEnv : Type where
  fileSize : Nat
  dl : DlOutcome
  uploadOk : Bool
  deriving DecidableEq, Repr

structure FhFinal : Type where
  tempCreated : Bool
  effects : List FhEffect
  deriving DecidableEq, Repr

/-- Handler `FileHandler.handle_file_upload` of src/file_handlers.py. -/
def fh_handle_file_upload (env : FhEnv) : FhFinal :=
  if 4 * 1024 * 1024 * 1024 < env.fileSize then
    { tempCreated := false, effects := [FhEffect.progressReply, FhEffect.editMsg] }
  else
    match env.dl with
    | DlOutcome.errNoFile =>
        { tempCreated := false
          effects := [FhEffect.progressReply, FhEffect.downloadCall] }
    | DlOutcome.errFileCreated =>
        { tempCreated := true
          effects := [FhEffect.progressReply, FhEffect.downloadCall] }
    | DlOutcome.ok =>
        if env.uploadOk then
          { tempCreated := true
            effects := [FhEffect.progressReply, FhEffect.downloadCall,
              FhEffect.editMsg, FhEffect.wasabiUploadCall, FhEffect.dbAddCall,
              FhEffect.removeTempCall, FhEffect.editMsg] }
        else
          { tempCreated := true
            effects := [FhEffect.progressReply, FhEffect.downloadCall,
              FhEffect.editMsg, FhEffect.wasabiUploadCall, FhEffect.editMsg,
              FhEffect.removeTempCall] }

/-! ## URL-safe base64 (web-player link encoding)

The upload handler encodes a presigned URL with
`base64.urlsafe_b64encode(url.encode()).decode().rstrip('=')`
(deepseek_python_20251003_7b178d.py, line 636); the player route re-adds
`'=' * (4 - len % 4)` when `len % 4 != 0` and calls
`base64.urlsafe_b64decode` (same file lines 130-140 and src/web_server.py
lines 18-29).  Bytes are `Nat < 256`; the stdlib codec is modelled at the
byte/sextet level per RFC 4648 with the URL-safe alphabet. -/

/-- The URL-safe base64 alphabet. -/
def b64chars : List Char :=
  ['A','B','C','D','E','F','G','H','I','J','K','L','M','N','O','P','Q','R',
   'S','T','U','V','W','X','Y','Z','a','b','c','d','e','f','g','h','i','j',
   'k','l','m','n','o','p','q','r','s','t','u','v','w','x','y','z','0','1',
   '2','3','4','5','6','7','8','9','-','_']

/-- Character of a sextet value. -/
def alpha (n : Nat) : Char := b64chars.getD n '?'

/-- Index of a character in the alphabet, scanning from the front. -/
def findIdx (c : Char) : List Char → Option Nat
  | [] => none
  | x :: xs => if x = c then some 0 else (findIdx c xs).map (· + 1)

/-- Sextet value of an alphabet character. -/
def decChar (c : Char) : Option Nat := findIdx c b64chars

/-- Stdlib `base64.urlsafe_b64encode` on a byte list: 3-byte groups become 4
characters; a trailing 1- or 2-byte group is completed with `'='` padding. -/
def b64encode : List Nat → List Char
  | [] => []
  | [b0] => [alpha (b0 / 4), alpha (b0 % 4 * 16), '=', '=']
  | [b0, b1] =>
      [alpha (b0 / 4), alpha (b0 % 4 * 16 + b1 / 16), alpha (b1 % 16 * 4), '=']
  | b0 :: b1 :: b2 :: rest =>
      alpha (b0 / 4) :: alpha (b0 % 4 * 16 + b1 / 16) ::
        alpha (b1 % 16 * 4 + b2 / 64) :: alpha (b2 % 64) :: b64encode rest

/-- Stdlib `base64.urlsafe_b64decode` on a character list: consumes 4 characters per
group; `'='` padding is legal only at the very end; any other shape or
non-alphabet character is an error (`none`). -/
def b64decode : List Char → Option (List Nat)
  | [] => some []
  | c0 :: c1 :: c2 :: c3 :: rest =>
      if c2 = '=' ∧ c3 = '=' ∧ rest = [] then
        match decChar c0, decChar c1 with
        | some s0, some s1 => some [s0 * 4 + s1 / 16]
        | _, _ => none
      else if c3 = '=' ∧ rest = [] then
        match decChar c0, decChar c1, decChar c2 with
        | some s0, some s1, some s2 =>
            some [s0 * 4 + s1 / 16, s1 % 16 * 16 + s2 / 4]
        | _, _, _ => none
      else
        match decChar c0, decChar c1, decChar c2, decChar c3, b64decode rest with
        | some s0, some s1, some s2, some s3, some bs =>
            some ((s0 * 4 + s1 / 16) :: (s1 % 16 * 16 + s2 / 4) ::
              (s2 % 4 * 64 + s3) :: bs)
        | _, _, _, _, _ => none
  | _ => none

/-- String method `.rstrip('=')`. -/
def rstripEq (s : List Char) : List Char :=
  (s.reverse.dropWhile (fun c => c == '=')).reverse

/-- The player route's padding restoration:
`padding = 4 - (len(encoded_url) % 4); if padding != 4: encoded_url += '=' * padding`. -/
def padRestore (s : List Char) : List Char :=
  let padding := 4 - s.length % 4
  if padding ≠ 4 then s ++ List.replicate padding '=' else s

/-- The upload handler's link encoding: urlsafe base64, `'='` stripped. -/
def encodeUpload (u : List Nat) : List Char := rstripEq (b64encode u)

/-- The player route's decoding: re-pad, then urlsafe base64-decode. -/
def playerDecode (s : List Char) : Option (List Nat) := b64decode (padRestore s)

/-! ## Theorems -/

/-- Pruning is the identity when every stored timestamp is inside the window. -/
theorem prune_eq_self (uploads : List Int) (now : Int)
    (h : ∀ t ∈ uploads, now - t < 3600) : prune uploads now = uploads :=
  List.filter_eq_self.mpr (fun t ht => by simpa using h t ht)

/-- One unfolding step of `admittedRun`. -/
theorem admittedRun_cons (s : List Int) (now : Int) (rest : List Int) :
    admittedRun s (now :: rest) =
      ((if (isLimited s now).1 then 0 else 1) + (admittedRun (isLimited s now).2 rest).1,
        (admittedRun (isLimited s now).2 rest).2) := rfl

/-- When all call times lie within one window of the stored timestamps and of
each other, at most `10 - s.length` further uploads are admitted. -/
theorem admittedRun_le (times : List Int) : ∀ s : List Int,
    (∀ a ∈ times, ∀ b ∈ s, a - b < 3600) →
    (∀ a ∈ times, ∀ b ∈ times, a - b < 3600) →
    (admittedRun s times).1 ≤ 10 - s.length := by
  induction times with
  | nil => intro s _ _; simp [admittedRun]
  | cons now rest ih =>
      intro s hs hp
      have hpr : prune s now = s :=
        prune_eq_self s now (fun t ht => hs now (by simp) t ht)
      rw [admittedRun_cons]
      by_cases hlen : 10 ≤ s.length
      · have hlim : isLimited s now = (true, prune s now) := by
          simp [isLimited, hpr, hlen]
        rw [hlim]
        have hrec := ih s (fun a ha b hb => hs a (by simp [ha]) b hb)
          (fun a ha b hb => hp a (by simp [ha]) b (by simp [hb]))
        simpa [hpr] using hrec
      · have hlim : isLimited s now = (false, s ++ [now]) := by
          simp [isLimited, hpr, hlen]
        rw [hlim]
        have hs' : ∀ a ∈ rest, ∀ b ∈ s ++ [now], a - b < 3600 := by
          intro a ha b hb
          rcases List.mem_append.mp hb with hb | hb
          · exact hs a (by simp [ha]) b hb
          · have hbn : b = now := by simpa using hb
            rw [hbn]
            exact hp a (by simp [ha]) now (by simp)
        have hrec := ih (s ++ [now]) hs'
          (fun a ha b hb => hp a (by simp [ha]) b (by simp [hb]))
        simp only [List.length_append, List.length_cons, List.length_nil] at hrec
        simp only [Bool.false_eq_true, if_false]
        omega

/-- C10: `is_limited` returns `True` and records no new timestamp when the
user already has 10 timestamps inside the 3600-second window, otherwise
returns `False` and records the current attempt; consequently at most 10
uploads are admitted per user within any one window, and
`get_remaining_uploads` is never negative. -/
theorem rate_limiter_props :
    (∀ (uploads : List Int) (now : Int), 10 ≤ (prune uploads now).length →
      isLimited uploads now = (true, prune uploads now)) ∧
    (∀ (uploads : List Int) (now : Int), (prune uploads now).length < 10 →
      isLimited uploads now = (false, prune uploads now ++ [now])) ∧
    (∀ (uploads : List Int) (now : Int), 0 ≤ getRemainingUploads uploads now) ∧
    (∀ times : List Int, (∀ a ∈ times, ∀ b ∈ times, a - b < 3600) →
      (admittedRun [] times).1 ≤ 10) := by
  refine ⟨?_, ?_, ?_, ?_⟩
  · intro uploads now h
    simp [isLimited, h]
  · intro uploads now h
    simp [isLimited, Nat.not_le.mpr h]
  · intro uploads now
    simp [getRemainingUploads]
  · intro times hp
    have := admittedRun_le times [] (by intro a _ b hb; simp at hb) hp
    simpa using this

/-- Witness for `rate_limiter_props`: eleven calls at time 0 (all inside one
window) admit exactly ten, a full store rejects, a near-full store admits,
and the remaining-uploads counter is nonnegative. -/
theorem rate_limiter_props_witness :
    (10 ≤ (prune [0, 0, 0, 0, 0, 0, 0, 0, 0, 0] (0 : Int)).length ∧
      isLimited [0, 0, 0, 0, 0, 0, 0, 0, 0, 0] (0 : Int) =
        (true, prune [0, 0, 0, 0, 0, 0, 0, 0, 0, 0] (0 : Int))) ∧
    ((prune [5] (6 : Int)).length < 10 ∧
      isLimited [5] (6 : Int) = (false, prune [5] (6 : Int) ++ [6])) ∧
    0 ≤ getRemainingUploads [5] (6 : Int) ∧
    ((∀ a ∈ [0, 0, 0, 0, 0, 0, 0, 0, 0, 0, 0], ∀ b ∈ [0, 0, 0, 0, 0, 0, 0, 0, 0, 0, 0],
        a - b < (3600 : Int)) ∧
      (admittedRun [] [0, 0, 0, 0, 0, 0, 0, 0, 0, 0, 0]).1 ≤ 10) :=
  ⟨⟨by decide, rate_limiter_props.1 _ _ (by decide)⟩,
    ⟨by decide, rate_limiter_props.2.1 _ _ (by decide)⟩,
    rate_limiter_props.2.2.1 [5] 6,
    ⟨by decide, rate_limiter_props.2.2.2 _ (by decide)⟩⟩

/-- C3: when the wrapped transfer raises `ClientError`s on attempts 1 and 2
and succeeds on attempt 3, `upload_to_wasabi` succeeds, performs exactly the
backoff sleeps `base_delay = 2` then `base_delay * 2 = 4` in that order, and
a user-visible retrying notice immediately precedes each backoff sleep. -/
theorem upload_retry_transient_success (c1 c2 : String) :
    (upload_to_wasabi (fun k => if k = 0 then some c1 else
        if k = 1 then some c2 else none)).1 = UResult.success ∧
    sleepsOf (upload_to_wasabi (fun k => if k = 0 then some c1 else
        if k = 1 then some c2 else none)).2 = [2, 2 * 2] ∧
    noticeBeforeEachSleep (upload_to_wasabi (fun k => if k = 0 then some c1 else
        if k = 1 then some c2 else none)).2 = true ∧
    attemptsOf (upload_to_wasabi (fun k => if k = 0 then some c1 else
        if k = 1 then some c2 else none)).2 = [0, 1, 2] :=
  ⟨rfl, rfl, rfl, rfl⟩

/-- C2 counterexample: a permanent `AccessDenied` error raised on every
attempt is retried anyway — the run makes all three attempts and performs two
backoff sleeps before the error propagates, not zero. -/
theorem upload_permanent_retried_counterexample :
    (upload_to_wasabi (fun _ => some "AccessDenied")).1 =
      UResult.raised "AccessDenied" ∧
    sleepsOf (upload_to_wasabi (fun _ => some "AccessDenied")).2 = [2, 4] ∧
    attemptsOf (upload_to_wasabi (fun _ => some "AccessDenied")).2 = [0, 1, 2] :=
  ⟨rfl, rfl, rfl⟩

/-- C2 (amended): `upload_to_wasabi` catches every `ClientError` uniformly —
whatever the error code, a failing attempt is retried with exponential
backoff, and the error propagates only when raised on the final attempt. -/
theorem upload_clienterror_always_retried (code : String) :
    upload_to_wasabi (fun _ => some code) =
      (UResult.raised code,
        [UEvent.attemptStart 0, UEvent.retryNotice 0 2, UEvent.backoffSleep 2,
          UEvent.attemptStart 1, UEvent.retryNotice 1 4, UEvent.backoffSleep 4,
          UEvent.attemptStart 2]) := rfl

/-- C6 counterexample: when the transfer call fails, the uploader issues zero
abort calls (the claim requires exactly one) and zero complete calls, and
propagates a wrapped error. -/
theorem multipart_no_abort_counterexample :
    (upload_to_wasabi_with_progress (some "upload_part failed")).2.count
        SinkCall.abortMultipartCall = 0 ∧
    (upload_to_wasabi_with_progress (some "upload_part failed")).2.count
        SinkCall.completeMultipartCall = 0 ∧
    (upload_to_wasabi_with_progress (some "upload_part failed")).1 =
      Except.error "Wasabi upload failed: upload_part failed" :=
  ⟨rfl, rfl, rfl⟩

/-- C6 (amended): on any `ClientError` from the transfer call,
`upload_to_wasabi_with_progress` itself issues no abort call and no complete
call (multipart management is delegated to the transfer library); it wraps
the error and propagates it. -/
theorem multipart_upload_delegates (e : String) :
    upload_to_wasabi_with_progress (some e) =
      (Except.error ("Wasabi upload failed: " ++ e), [SinkCall.uploadFileCall]) ∧
    (upload_to_wasabi_with_progress (some e)).2.count SinkCall.abortMultipartCall = 0 ∧
    (upload_to_wasabi_with_progress (some e)).2.count SinkCall.completeMultipartCall = 0 :=
  ⟨rfl, rfl, rfl⟩

/-- C1 counterexample: in src/bot.py's `handle_file_upload`, a successful
download followed by a raising status-message edit returns with the local
temp file still on disk — cleanup does not run on that exit path. -/
theorem bot_upload_leak_counterexample :
    (handle_file_upload
      { dl := DlOutcome.ok, editUploadingRaises := true, uploadUrl := some "url",
        hasCaption := true, finalizeRaises := false }).tempExists = true := rfl

/-- C1 (amended): the deepseek `file_handler` removes the temp file and the
per-job progress entry on every exit path (its `finally` block), and removes
the file precisely when one was created; src/bot.py's `handle_file_upload`
removes its temp file only on the success path — when download, the
pre-upload edit, and the upload all succeed. -/
theorem cleanup_guarantee_amended :
    (∀ env : FHEnv,
      (file_handler env).tempExists = false ∧
      (file_handler env).entryExists = false ∧
      ((file_handler env).tempCreated = true →
        Effect.removeFileCall ∈ (file_handler env).effects)) ∧
    (∀ benv : BotEnv, benv.dl = DlOutcome.ok → benv.editUploadingRaises = false →
      benv.uploadUrl.isSome = true → (handle_file_upload benv).tempExists = false) := by
  constructor
  · intro env
    rcases env with ⟨s3, rate, size, dl, up, pre, ew⟩
    cases dl <;> simp only [file_handler, finallyCleanup] <;>
      split_ifs <;> simp_all
  · intro benv h1 h2 h3
    rcases benv with ⟨dl, er, url, hc, fr⟩
    cases dl <;> simp_all [handle_file_upload]
    cases url <;> simp_all

/-- Witness for `cleanup_guarantee_amended` at a concrete failing-upload run
of `file_handler` and a concrete successful run of `handle_file_upload`. -/
theorem cleanup_guarantee_amended_witness :
    ((file_handler
        { s3Init := true, rateLimited := false, fileSize := 1000,
          dl := DlOutcome.ok, uploadRaises := true, presigned := none,
          progressEntryWritten := true }).tempExists = false ∧
      (file_handler
        { s3Init := true, rateLimited := false, fileSize := 1000,
          dl := DlOutcome.ok, uploadRaises := true, presigned := none,
          progressEntryWritten := true }).entryExists = false ∧
      Effect.removeFileCall ∈ (file_handler
        { s3Init := true, rateLimited := false, fileSize := 1000,
          dl := DlOutcome.ok, uploadRaises := true, presigned := none,
          progressEntryWritten := true }).effects) ∧
    (handle_file_upload
      { dl := DlOutcome.ok, editUploadingRaises := false, uploadUrl := some "url",
        hasCaption := false, finalizeRaises := false }).tempExists = false :=
  ⟨⟨(cleanup_guarantee_amended.1 _).1, (cleanup_guarantee_amended.1 _).2.1,
      (cleanup_guarantee_amended.1 _).2.2 (by decide)⟩,
    cleanup_guarantee_amended.2 _ (by decide) (by decide) (by decide)⟩

/-- C4: a declared size strictly above the 4 GiB ceiling is rejected by both
handlers before any job state exists: no temp file is ever created, no
download is started, and no object-store call is made. -/
theorem size_ceiling_rejection :
    (∀ env : FHEnv, 4 * 1024 * 1024 * 1024 < env.fileSize →
      (file_handler env).tempCreated = false ∧
      Effect.downloadMediaCall ∉ (file_handler env).effects ∧
      Effect.uploadFileCall ∉ (file_handler env).effects ∧
      Effect.presignCall ∉ (file_handler env).effects ∧
      Effect.makeDirs ∉ (file_handler env).effects ∧
      ((file_handler env).outcome = FHOutcome.rejectedNoClient ∨
        (file_handler env).outcome = FHOutcome.rejectedRate ∨
        (file_handler env).outcome = FHOutcome.rejectedSize)) ∧
    (∀ fenv : FhEnv, 4 * 1024 * 1024 * 1024 < fenv.fileSize →
      (fh_handle_file_upload fenv).tempCreated = false ∧
      FhEffect.downloadCall ∉ (fh_handle_file_upload fenv).effects ∧
      FhEffect.wasabiUploadCall ∉ (fh_handle_file_upload fenv).effects) := by
  constructor
  · intro env h
    rcases env with ⟨s3, rate, size, dl, up, pre, ew⟩
    simp only [file_handler]
    split_ifs <;> simp_all
  · intro fenv h
    rcases fenv with ⟨size, dl, up⟩
    simp only [fh_handle_file_upload]
    split_ifs <;> simp_all

/-- Witness for `size_ceiling_rejection` at the spec's scenario: a declared
size of 5 GiB against the 4 GiB ceiling. -/
theorem size_ceiling_rejection_witness :
    (4 * 1024 * 1024 * 1024 <
        (5 * 1024 * 1024 * 1024 : Nat) ∧
      (file_handler
        { s3Init := true, rateLimited := false, fileSize := 5 * 1024 * 1024 * 1024,
          dl := DlOutcome.ok, uploadRaises := false, presigned := none,
          progressEntryWritten := false }).tempCreated = false ∧
      Effect.downloadMediaCall ∉ (file_handler
        { s3Init := true, rateLimited := false, fileSize := 5 * 1024 * 1024 * 1024,
          dl := DlOutcome.ok, uploadRaises := false, presigned := none,
          progressEntryWritten := false }).effects) ∧
    (fh_handle_file_upload
      { fileSize := 5 * 1024 * 1024 * 1024, dl := DlOutcome.ok,
        uploadOk := true }).tempCreated = false :=
  ⟨⟨by decide,
      (size_ceiling_rejection.1
        { s3Init := true, rateLimited := false, fileSize := 5 * 1024 * 1024 * 1024,
          dl := DlOutcome.ok, uploadRaises := false, presigned := none,
          progressEntryWritten := false } (by decide)).1,
      (size_ceiling_rejection.1
        { s3Init := true, rateLimited := false, fileSize := 5 * 1024 * 1024 * 1024,
          dl := DlOutcome.ok, uploadRaises := false, presigned := none,
          progressEntryWritten := false } (by decide)).2.1⟩,
    (size_ceiling_rejection.2
      { fileSize := 5 * 1024 * 1024 * 1024, dl := DlOutcome.ok,
        uploadOk := true } (by decide)).1⟩

/-- C5 counterexample: the src/bot/utils.py reporter suppresses a completion
update — with `current == total` and only 1 second since the last update for
the message, no update is emitted. -/
theorem utils_completion_suppressed_counterexample :
    (progressCallbackUtils 100 100 7 10 [(7, 9)]).emitted = false := by decide

/-- C5 (amended): the deepseek `progress_callback` always emits on completion
(for nonzero totals) and, for `current != total`, emits exactly when at least
2 seconds have elapsed since the last recorded update; the src/bot/utils.py
variant rate-limits purely on time — for a message already tracked it emits
exactly when 2 seconds have elapsed, suppressing even completion updates. -/
theorem progress_completion_amended :
    (∀ (current total mid : Nat) (now : Int) (m : List (Nat × Int)),
      0 < total → current = total →
      (progressCallbackDs current total mid now m).emitted = true) ∧
    (∀ (current total mid : Nat) (now : Int) (m : List (Nat × Int)),
      0 < total → current ≠ total →
      ((progressCallbackDs current total mid now m).emitted = true ↔
        2 ≤ now - ((m.lookup mid).getD 0))) ∧
    (∀ (current total mid : Nat) (now : Int) (m : List (Nat × Int)),
      0 < total → (m.lookup mid).isSome = true →
      ((progressCallbackUtils current total mid now m).emitted = true ↔
        2 ≤ now - ((m.lookup mid).getD 0))) := by
  refine ⟨?_, ?_, ?_⟩
  · intro current total mid now m ht hc
    simp only [progressCallbackDs]
    split_ifs with h1 h2
    · exact absurd hc h1.2
    · omega
    · rfl
  · intro current total mid now m ht hc
    simp only [progressCallbackDs]
    split_ifs with h1 h2
    · simp only [Bool.false_eq_true, false_iff]
      omega
    · omega
    · simp only [true_iff]
      rcases not_and_or.mp h1 with h | h
      · omega
      · exact absurd hc h
  · intro current total mid now m ht hsome
    simp only [progressCallbackUtils]
    split_ifs with h1 h2
    · simp only [Bool.false_eq_true, false_iff]
      omega
    · omega
    · simp only [true_iff]
      rcases not_and_or.mp h1 with h | h
      · exact absurd hsome h
      · omega

/-- Witness for `progress_completion_amended` at concrete calls. -/
theorem progress_completion_amended_witness :
    (0 < 5 ∧ (progressCallbackDs 5 5 1 100 []).emitted = true) ∧
    (0 < 5 ∧ 1 ≠ 5 ∧
      ((progressCallbackDs 1 5 1 100 []).emitted = true ↔
        2 ≤ (100 : Int) - (([] : List (Nat × Int)).lookup 1).getD 0)) ∧
    (0 < 5 ∧ (([(1, 99)] : List (Nat × Int)).lookup 1).isSome = true ∧
      ((progressCallbackUtils 3 5 1 100 [(1, 99)]).emitted = true ↔
        2 ≤ (100 : Int) - (([(1, 99)] : List (Nat × Int)).lookup 1).getD 0)) :=
  ⟨⟨by decide, progress_completion_amended.1 5 5 1 100 [] (by decide) rfl⟩,
    ⟨by decide, by decide,
      progress_completion_amended.2.1 1 5 1 100 [] (by decide) (by decide)⟩,
    ⟨by decide, by decide,
      progress_completion_amended.2.2 3 5 1 100 [(1, 99)] (by decide) (by decide)⟩⟩

/-- C7 (code bug): at `total == 0` none of the reporters skips the percentage
computation — the deepseek and bot/utils callbacks raise `ZeroDivisionError`
(after recording the update time), and `upload_progress` swallows the error
inside its catch-all and performs no display update at all. -/
theorem progress_zero_total_division :
    (progressCallbackDs 0 0 5 100 []).err = some PyErr.zeroDivisionError ∧
    (progressCallbackDs 0 0 5 100 []).emitted = false ∧
    (progressCallbackUtils 0 0 5 100 []).err = some PyErr.zeroDivisionError ∧
    upload_progress 0 0 = (false, some PyErr.zeroDivisionError) := by decide

/-- The `humanbytes` division loop divides by 1024 some `j ≤ fuel` times. -/
theorem humanLoop_shape : ∀ (fuel : Nat) (q : ℚ) (n : Nat),
    ∃ j, j ≤ fuel ∧ humanLoop fuel q n = (q / 1024 ^ j, n + j) := by
  intro fuel
  induction fuel with
  | zero => intro q n; exact ⟨0, Nat.le_refl 0, by simp [humanLoop]⟩
  | succ f ih =>
      intro q n
      by_cases h : 1024 < q ∧ n < 4
      · obtain ⟨j, hj, heq⟩ := ih (q / 1024) (n + 1)
        refine ⟨j + 1, by omega, ?_⟩
        simp only [humanLoop, if_pos h, heq]
        rw [div_div, ← pow_succ', Prod.mk.injEq]
        exact ⟨rfl, by omega⟩
      · exact ⟨0, Nat.zero_le _, by simp [humanLoop, if_neg h]⟩

/-- The `format_size` division loop divides by 1024 some `i ≤ fuel` times. -/
theorem fsLoop_shape : ∀ (fuel : Nat) (q : ℚ) (n : Nat),
    ∃ j, j ≤ fuel ∧ fsLoop fuel q n = (q / 1024 ^ j, n + j) := by
  intro fuel
  induction fuel with
  | zero => intro q n; exact ⟨0, Nat.le_refl 0, by simp [fsLoop]⟩
  | succ f ih =>
      intro q n
      by_cases h : 1024 ≤ q ∧ n < 3
      · obtain ⟨j, hj, heq⟩ := ih (q / 1024) (n + 1)
        refine ⟨j + 1, by omega, ?_⟩
        simp only [fsLoop, if_pos h, heq]
        rw [div_div, ← pow_succ', Prod.mk.injEq]
        exact ⟨rfl, by omega⟩
      · exact ⟨0, Nat.zero_le _, by simp [fsLoop, if_neg h]⟩

/-- C8 counterexample: for input 0 `humanbytes` returns the bare string
`"0B"`, which is not of the claimed form `"{value:.2f} {unit}"` (it contains
no space-separated two-decimal value). -/
theorem humanbytes_zero_form_counterexample :
    humanbytes 0 = "0B" ∧
    ¬ ∃ (q : ℚ) (u : String), humanbytes 0 = formatFixed2 q ++ " " ++ u := by
  refine ⟨rfl, ?_⟩
  rintro ⟨q, u, h⟩
  have h0 : humanbytes 0 = "0B" := rfl
  rw [h0] at h
  have hsp : ' ' ∈ ("0B" : String).data := by
    rw [h, String.data_append, String.data_append]
    exact List.mem_append.mpr (Or.inl (List.mem_append.mpr (Or.inr (by decide))))
  exact absurd hsp (by decide)

/-- C8 (amended): zero input yields the bare `"0B"` from `humanbytes` and
`"0 B"` from `format_size`; every positive input yields
`"{value:.2f} {unit}"` with `value = n / 1024^k` where `k` counts the
divisions performed while the value exceeds the threshold — `humanbytes`
(strict `> 1024`) escalates through B, KB, MB, GB, TB, while src/bot.py's
`format_size` (`>= 1024`) stops at GB.  Both are total on `Nat`. -/
theorem size_formatter_amended :
    humanbytes 0 = "0B" ∧ format_size 0 = "0 B" ∧
    (∀ n : Nat, 0 < n →
      (∃ k, k ≤ 4 ∧
        humanbytes n = formatFixed2 ((n : ℚ) / 1024 ^ k) ++ " " ++
          power_labels k ++ "B" ∧
        power_labels k ∈ ["", "K", "M", "G", "T"]) ∧
      (∃ i, i ≤ 3 ∧
        format_size n = formatFixed2 ((n : ℚ) / 1024 ^ i) ++ " " ++ size_names i ∧
        size_names i ∈ ["B", "KB", "MB", "GB"])) := by
  refine ⟨rfl, rfl, ?_⟩
  intro n hn
  constructor
  · obtain ⟨j, hj, heq⟩ := humanLoop_shape 4 (n : ℚ) 0
    refine ⟨j, hj, ?_, ?_⟩
    · simp [humanbytes, hn.ne', heq]
    · interval_cases j <;> decide
  · obtain ⟨j, hj, heq⟩ := fsLoop_shape 3 (n : ℚ) 0
    refine ⟨j, hj, ?_, ?_⟩
    · simp [format_size, hn.ne', heq]
    · interval_cases j <;> decide

/-- Witness for `size_formatter_amended` at the concrete input 5. -/
theorem size_formatter_amended_witness :
    0 < 5 ∧
    ((∃ k, k ≤ 4 ∧
        humanbytes 5 = formatFixed2 ((5 : ℚ) / 1024 ^ k) ++ " " ++
          power_labels k ++ "B" ∧
        power_labels k ∈ ["", "K", "M", "G", "T"]) ∧
      (∃ i, i ≤ 3 ∧
        format_size 5 = formatFixed2 ((5 : ℚ) / 1024 ^ i) ++ " " ++ size_names i ∧
        size_names i ∈ ["B", "KB", "MB", "GB"])) :=
  ⟨by decide, size_formatter_amended.2.2 5 (by decide)⟩

/-- Decoding an alphabet character recovers its sextet value. -/
theorem decChar_alpha (n : Nat) (h : n < 64) : decChar (alpha n) = some n := by
  have hall : ∀ s : Fin 64, decChar (alpha s.val) = some s.val := by decide
  exact hall ⟨n, h⟩

/-- Alphabet characters are never the padding character. -/
theorem alpha_ne_pad (n : Nat) (h : n < 64) : alpha n ≠ '=' := by
  have hall : ∀ s : Fin 64, alpha s.val ≠ '=' := by decide
  exact hall ⟨n, h⟩

/-- Decoding inverts encoding on byte lists (before any padding games). -/
theorem b64decode_b64encode : ∀ (u : List Nat), (∀ b ∈ u, b < 256) →
    b64decode (b64encode u) = some u
  | [], _ => rfl
  | [b0], h => by
      have h0 : b0 < 256 := h b0 (by simp)
      have e1 := decChar_alpha (b0 / 4) (by omega)
      have e2 := decChar_alpha (b0 % 4 * 16) (by omega)
      simp [b64encode, b64decode, e1, e2]
      omega
  | [b0, b1], h => by
      have h0 : b0 < 256 := h b0 (by simp)
      have h1 : b1 < 256 := h b1 (by simp)
      have e1 := decChar_alpha (b0 / 4) (by omega)
      have e2 := decChar_alpha (b0 % 4 * 16 + b1 / 16) (by omega)
      have e3 := decChar_alpha (b1 % 16 * 4) (by omega)
      have n3 := alpha_ne_pad (b1 % 16 * 4) (by omega)
      simp [b64encode, b64decode, e1, e2, e3, n3]
      omega
  | b0 :: b1 :: b2 :: rest, h => by
      have h0 : b0 < 256 := h b0 (by simp)
      have h1 : b1 < 256 := h b1 (by simp)
      have h2 : b2 < 256 := h b2 (by simp)
      have ih := b64decode_b64encode rest (fun b hb => h b (by simp [hb]))
      have e1 := decChar_alpha (b0 / 4) (by omega)
      have e2 := decChar_alpha (b0 % 4 * 16 + b1 / 16) (by omega)
      have e3 := decChar_alpha (b1 % 16 * 4 + b2 / 64) (by omega)
      have e4 := decChar_alpha (b2 % 64) (by omega)
      have n3 := alpha_ne_pad (b1 % 16 * 4 + b2 / 64) (by omega)
      have n4 := alpha_ne_pad (b2 % 64) (by omega)
      simp [b64encode, b64decode, e1, e2, e3, e4, n3, n4, ih]
      omega

/-- The encoding of a byte list is padding-free characters followed by
`k ≤ 2` copies of `'='`, with total length a multiple of 4. -/
theorem b64encode_shape : ∀ (u : List Nat), (∀ b ∈ u, b < 256) →
    ∃ A k, b64encode u = A ++ List.replicate k '=' ∧ (∀ c ∈ A, c ≠ '=') ∧
      k ≤ 2 ∧ (A.length + k) % 4 = 0
  | [], _ => ⟨[], 0, rfl, by simp, by omega, by simp⟩
  | [b0], h => by
      have h0 : b0 < 256 := h b0 (by simp)
      refine ⟨[alpha (b0 / 4), alpha (b0 % 4 * 16)], 2, by simp [b64encode], ?_,
        by omega, by simp⟩
      intro c hc
      simp only [List.mem_cons, List.not_mem_nil, or_false] at hc
      rcases hc with hc | hc
      · exact hc ▸ alpha_ne_pad _ (by omega)
      · exact hc ▸ alpha_ne_pad _ (by omega)
  | [b0, b1], h => by
      have h0 : b0 < 256 := h b0 (by simp)
      have h1 : b1 < 256 := h b1 (by simp)
      refine ⟨[alpha (b0 / 4), alpha (b0 % 4 * 16 + b1 / 16), alpha (b1 % 16 * 4)],
        1, by simp [b64encode], ?_, by omega, by simp⟩
      intro c hc
      simp only [List.mem_cons, List.not_mem_nil, or_false] at hc
      rcases hc with hc | hc | hc
      · exact hc ▸ alpha_ne_pad _ (by omega)
      · exact hc ▸ alpha_ne_pad _ (by omega)
      · exact hc ▸ alpha_ne_pad _ (by omega)
  | b0 :: b1 :: b2 :: rest, h => by
      have h0 : b0 < 256 := h b0 (by simp)
      have h1 : b1 < 256 := h b1 (by simp)
      have h2 : b2 < 256 := h b2 (by simp)
      obtain ⟨A, k, hE, hA, hk, hlen⟩ :=
        b64encode_shape rest (fun b hb => h b (by simp [hb]))
      refine ⟨alpha (b0 / 4) :: alpha (b0 % 4 * 16 + b1 / 16) ::
        alpha (b1 % 16 * 4 + b2 / 64) :: alpha (b2 % 64) :: A, k,
        by simp [b64encode, hE], ?_, hk, ?_⟩
      · intro c hc
        simp only [List.mem_cons] at hc
        rcases hc with hc | hc | hc | hc | hc
        · exact hc ▸ alpha_ne_pad _ (by omega)
        · exact hc ▸ alpha_ne_pad _ (by omega)
        · exact hc ▸ alpha_ne_pad _ (by omega)
        · exact hc ▸ alpha_ne_pad _ (by omega)
        · exact hA c hc
      · simp only [List.length_cons]
        omega

/-- Lemma: `dropWhile` passes over a replicated block it accepts. -/
theorem dropWhile_replicate_append (p : Char → Bool) (k : Nat) (a : Char)
    (t : List Char) (h : p a = true) :
    List.dropWhile p (List.replicate k a ++ t) = List.dropWhile p t := by
  induction k with
  | zero => simp
  | succ n ih => simp [List.replicate, List.dropWhile, h, ih]

/-- Stripping `'='` from the right removes exactly the trailing padding block. -/
theorem rstripEq_append_pad (A : List Char) (k : Nat) (hA : ∀ c ∈ A, c ≠ '=') :
    rstripEq (A ++ List.replicate k '=') = A := by
  unfold rstripEq
  rw [List.reverse_append, List.reverse_replicate,
    dropWhile_replicate_append _ _ _ _ (by decide)]
  cases hrev : A.reverse with
  | nil =>
      have : A = [] := by simpa using congrArg List.reverse hrev
      simp [this]
  | cons c t =>
      have hc : c ∈ A := by
        rw [← List.mem_reverse, hrev]
        simp
      have hne : (c == '=') = false := by
        simpa using hA c hc
      rw [List.dropWhile_cons_of_neg (by simp [hne]), ← hrev, List.reverse_reverse]

/-- The player's padding restoration re-appends exactly the stripped block. -/
theorem padRestore_strip (A : List Char) (k : Nat) (hk : k ≤ 2)
    (hlen : (A.length + k) % 4 = 0) :
    padRestore A = A ++ List.replicate k '=' := by
  unfold padRestore
  interval_cases k
  · have h4 : A.length % 4 = 0 := by omega
    simp [h4]
  · have h4 : A.length % 4 = 3 := by omega
    simp [h4]
  · have h4 : A.length % 4 = 2 := by omega
    simp [h4]

/-- C9: the player route's decoding (re-pad with `'='` to a multiple of 4,
then urlsafe base64-decode) inverts the upload handler's encoding (urlsafe
base64-encode, strip trailing `'='`) on every byte string. -/
theorem web_player_url_roundtrip (u : List Nat) (h : ∀ b ∈ u, b < 256) :
    playerDecode (encodeUpload u) = some u := by
  obtain ⟨A, k, hE, hA, hk, hlen⟩ := b64encode_shape u h
  unfold playerDecode encodeUpload
  rw [hE, rstripEq_append_pad A k hA, padRestore_strip A k hk hlen, ← hE]
  exact b64decode_b64encode u h

/-- Witness for `web_player_url_roundtrip` on the bytes of `"https://"`. -/
theorem web_player_url_roundtrip_witness :
    (∀ b ∈ [104, 116, 116, 112, 115, 58, 47, 47], b < 256) ∧
    playerDecode (encodeUpload [104, 116, 116, 112, 115, 58, 47, 47]) =
      some [104, 116, 116, 112, 115, 58, 47, 47] :=
  ⟨by decide, web_player_url_roundtrip _ (by decide)⟩

end Storage
